import Mathlib

/-!
Shallow embedding of the wildlife-sighting reporting application
(React/TypeScript front end backed by Supabase).

Conventions of the embedding:
* JavaScript numbers are modelled as rationals (`ℚ`); `Math.random()`
  becomes an explicit rational argument (its callers quantify over the
  draw, with the range `[0,1)` as a hypothesis where needed).
* `localStorage` is modelled at the single key used by the app
  (`sentry_jamii_offline_reports`): the stored value is either absent,
  a string `JSON.parse` rejects (`corrupt`), or the serialization of a
  report list.  `JSON.stringify`/`JSON.parse` themselves are browser
  primitives, not repository code, so they are modelled as the exact
  inverse pair on report lists.
* Calls to the hosted backend (Supabase storage upload, table insert)
  and PDF generation are recorded in an explicit effect trace.
* TypeScript string-literal union fields are modelled as `String`,
  matching their runtime representation.
-/

namespace SentryJamii

/-- `Report` row type from `src/project/src/lib/supabase.ts`. -/
structure Report where
  id : String
  user_id : Option String
  animal_type : String
  image_url : String
  latitude : ℚ
  longitude : ℚ
  status : String
  feedback : Option String
  created_at : String
  updated_at : String
deriving DecidableEq, Repr

/-- `OfflineReport` from `src/project/src/utils/offlineStorage.ts`:
`Omit<Report, 'id' | 'created_at' | 'updated_at'>` plus `tempId`,
`imageDataUrl`, `timestamp`. -/
structure OfflineReport where
  tempId : String
  user_id : Option String
  animal_type : String
  image_url : String
  imageDataUrl : String
  latitude : ℚ
  longitude : ℚ
  status : String
  feedback : Option String
  timestamp : String
deriving DecidableEq, Repr

/-- A browser `File` object; `analyzeAnimalImage` never inspects it. -/
structure File where
  name : String
deriving DecidableEq, Repr

/-- `AnimalAnalysis` from `src/project/src/utils/aiAnalysis.ts`. -/
structure AnimalAnalysis where
  animalType : String
  confidence : ℚ
deriving DecidableEq, Repr

/-- The fixed list of animal names in `aiAnalysis.ts`. -/
def animalTypes : List String :=
  ["Lion", "Elephant", "Giraffe", "Zebra", "Cheetah", "Leopard",
   "Buffalo", "Rhinoceros", "Hippopotamus", "Antelope", "Gazelle",
   "Wildebeest", "Hyena", "Wild Dog", "Baboon", "Monkey", "Bird"]

/-- JavaScript `Math.round` on the (non-negative) values this app feeds
to it: round half up, `⌊x + 1/2⌋`. -/
def jsRound (x : ℚ) : ℤ := ⌊x + 1 / 2⌋

/-- The two `Math.random()` draws made by one call to
`analyzeAnimalImage`, in evaluation order. -/
structure RandomDraws where
  animalRand : ℚ
  confRand : ℚ
deriving DecidableEq, Repr

/-- `analyzeAnimalImage` from `src/project/src/utils/aiAnalysis.ts`.
The `setTimeout` delay has no observable effect on the result and is
not modelled.  JavaScript out-of-range indexing yields `undefined`,
modelled by the `getD` default (unreachable for draws in `[0,1)`). -/
def analyzeAnimalImage (imageFile : File) (rnd : RandomDraws) : AnimalAnalysis :=
  let randomAnimal :=
    animalTypes.getD (⌊rnd.animalRand * (animalTypes.length : ℚ)⌋).toNat ""
  let confidence := rnd.confRand * (3 / 10) + 7 / 10
  { animalType := randomAnimal
    confidence := (jsRound (confidence * 100) : ℚ) / 100 }

/-- The value `localStorage` holds at key `sentry_jamii_offline_reports`. -/
inductive StoredValue where
  | absent
  | corrupt
  | reports (l : List OfflineReport)
deriving DecidableEq, Repr

/-- Effects observable outside the component: backend calls, the
local offline queue write, and PDF generation. -/
inductive Effect where
  | storageUpload (bucket fileName : String)
  | dbInsert (table : String) (r : Report)
  | offlineSave (r : OfflineReport)
  | pdfGenerated (r : Report) (imageDataUrl : String)
deriving DecidableEq, Repr

/-- `getOfflineReports`: `localStorage.getItem` then `JSON.parse` inside
`try`/`catch`; a missing key gives `[]` via the ternary, a parse failure
is caught and gives `[]`. -/
def getOfflineReports (st : StoredValue) : List OfflineReport :=
  match st with
  | .absent => []
  | .corrupt => []
  | .reports l => l

/-- `saveOfflineReport`: read the existing list, append the report,
store the result. -/
def saveOfflineReport (report : OfflineReport) (st : StoredValue) : StoredValue :=
  let existingReports := getOfflineReports st
  .reports (existingReports ++ [report])

/-- `clearOfflineReports`: `localStorage.removeItem`. -/
def clearOfflineReports (_ : StoredValue) : StoredValue := .absent

/-- `syncOfflineReports`: the body only calls `clearOfflineReports`;
it performs no backend calls, so its effect trace is empty. -/
def syncOfflineReports (st : StoredValue) : StoredValue × List Effect :=
  (clearOfflineReports st, [])

/-! ### Top-level screen flow (`AppContent` in the app component) -/

/-- The eight `AppState` string-literal values, in declaration order. -/
def appStates : List String :=
  ["splash", "userSelection", "auth", "camera", "report",
   "rangerDashboard", "adminDashboard", "complete"]

/-- The initial `useState<AppState>('splash')` value. -/
def initialAppState : String := "splash"

/-- The events on which `AppContent` calls `setCurrentState`:
the named handlers, the auth `useEffect` redirect, and the 3-second
timeout scheduled by `handleReportComplete`. -/
inductive AppEvent where
  | splashComplete
  | userTypeSelection (userType : String)
  | authProfileLoaded (user_type : String)
  | imageCapture
  | reportComplete
  | completeTimeout
  | backToUserSelection
  | backToCamera
deriving DecidableEq, Repr

/-- `handleUserTypeSelection`: `'anonymous'` skips auth and goes to the
camera; every other selection goes to the auth page. -/
def handleUserTypeSelection (userType : String) : String :=
  if userType == "anonymous" then "camera" else "auth"

/-- The auth `useEffect` redirect: once a user and profile are loaded,
route by `profile.user_type`; any other `user_type` value matches no
branch and leaves the state unchanged. -/
def authRedirect (user_type : String) (s : String) : String :=
  if user_type == "ranger" then "rangerDashboard"
  else if user_type == "admin" then "adminDashboard"
  else if user_type == "community" then "camera"
  else s

/-- The screen-flow transition function: what `setCurrentState` is
called with on each event, as a function of the current state. -/
def appStep (e : AppEvent) (s : String) : String :=
  match e with
  | .splashComplete => "userSelection"
  | .userTypeSelection userType => handleUserTypeSelection userType
  | .authProfileLoaded user_type => authRedirect user_type s
  | .imageCapture => "report"
  | .reportComplete => "complete"
  | .completeTimeout => "userSelection"
  | .backToUserSelection => "userSelection"
  | .backToCamera => "camera"

/-! ### Report submission (`ReportGeneration` component) -/

/-- A geolocation fix as stored in the `location` state. -/
structure Location where
  latitude : ℚ
  longitude : ℚ
deriving DecidableEq, Repr

/-- The inputs `submitReport` reads from component state, props, the
browser environment, and the backend's responses. -/
structure SubmitEnv where
  isAnonymous : Bool
  userId : Option String
  animalType : String
  imageDataUrl : String
  location : Option Location
  onLine : Bool
  reportId : String
  now : String
  uploadTime : String
  uploadError : Option String
  storagePublicUrlBase : String
  insertError : Option String
deriving DecidableEq, Repr

/-- `createReport`: builds the fresh `Report` object.  `crypto.randomUUID()`
and `new Date().toISOString()` are the `reportId` and `now` inputs;
`location?.latitude || 0` equals the latitude when a location is set
(`0 || 0 = 0`) and `0` otherwise. -/
def createReport (env : SubmitEnv) : Report :=
  { id := env.reportId
    user_id := if env.isAnonymous then none else env.userId
    animal_type := env.animalType
    image_url := ""
    latitude := (env.location.map Location.latitude).getD 0
    longitude := (env.location.map Location.longitude).getD 0
    status := "pending"
    feedback := none
    created_at := env.now
    updated_at := env.now }

/-- The storage object name `uploadImage` builds:
`` `${reportId}-${Date.now()}.jpg` ``. -/
def uploadFileName (env : SubmitEnv) : String :=
  env.reportId ++ "-" ++ env.uploadTime ++ ".jpg"

/-- What `submitReport` leaves behind: the `report` state (set on
success), the `error` state, the effect trace, and the resulting
`localStorage` contents. -/
structure SubmitResult where
  report : Option Report
  error : Option String
  effects : List Effect
  store : StoredValue
deriving DecidableEq, Repr

/-- `submitReport` from the `ReportGeneration` component.  Online:
upload the image, set `image_url` to its public URL, insert the row,
then generate the PDF.  Offline: queue an `OfflineReport` in
`localStorage` (data URL kept, empty `image_url`), then generate the
PDF.  A thrown upload or insert error is caught and stored in the
`error` state, aborting the rest of the `try` block. -/
def submitReport (env : SubmitEnv) (st : StoredValue) : SubmitResult :=
  match env.location with
  | none => { report := none, error := some "Location is required", effects := [], store := st }
  | some _ =>
    let newReport := createReport env
    if env.onLine then
      let fileName := uploadFileName env
      match env.uploadError with
      | some e =>
          { report := none, error := some e
            effects := [.storageUpload "wildlife-images" fileName], store := st }
      | none =>
        let imageUrl := env.storagePublicUrlBase ++ fileName
        let newReport := { newReport with image_url := imageUrl }
        match env.insertError with
        | some e =>
            { report := none, error := some e
              effects := [.storageUpload "wildlife-images" fileName,
                          .dbInsert "reports" newReport]
              store := st }
        | none =>
            { report := some newReport, error := none
              effects := [.storageUpload "wildlife-images" fileName,
                          .dbInsert "reports" newReport,
                          .pdfGenerated newReport env.imageDataUrl]
              store := st }
    else
      let offline : OfflineReport :=
        { tempId := newReport.id
          user_id := newReport.user_id
          animal_type := newReport.animal_type
          image_url := ""
          imageDataUrl := env.imageDataUrl
          latitude := newReport.latitude
          longitude := newReport.longitude
          status := newReport.status
          feedback := none
          timestamp := newReport.created_at }
      { report := some newReport, error := none
        effects := [.offlineSave offline, .pdfGenerated newReport env.imageDataUrl]
        store := saveOfflineReport offline st }

/-! ### Ranger dashboard local update (`updateReportStatus`) -/

/-- JavaScript `feedbackText || report.feedback` on an optional string:
`undefined` and `''` are falsy. -/
def jsOrFeedback (feedbackText : Option String) (old : Option String) : Option String :=
  match feedbackText with
  | some s => if s == "" then old else some s
  | none => old

/-- The per-report function inside the `setReports(prev => prev.map(...))`
call of `updateReportStatus`. -/
def applyStatusUpdate (reportId status : String) (feedbackText : Option String)
    (report : Report) : Report :=
  if report.id == reportId then
    { report with status := status, feedback := jsOrFeedback feedbackText report.feedback }
  else report

/-- The local-state update performed by `updateReportStatus` after a
successful backend update. -/
def updateReportStatusLocal (reports : List Report) (reportId status : String)
    (feedbackText : Option String) : List Report :=
  reports.map (applyStatusUpdate reportId status feedbackText)

/-! ## Theorems -/

/-- C1 (counterexample): `analyzeAnimalImage` is not deterministic in the
input file: two calls on the same file, with the different `Math.random()`
draws two calls can make, return different `AnimalAnalysis` results. -/
theorem analyzeAnimalImage_not_deterministic :
    analyzeAnimalImage ⟨"photo.jpg"⟩ ⟨0, 0⟩ ≠ analyzeAnimalImage ⟨"photo.jpg"⟩ ⟨1/2, 0⟩ := by
  have h1 : analyzeAnimalImage ⟨"photo.jpg"⟩ ⟨0, 0⟩ = ⟨"Lion", 7/10⟩ := by
    have hf : ⌊(0 : ℚ) * (animalTypes.length : ℚ)⌋ = 0 := by
      rw [Int.floor_eq_iff]; norm_num [animalTypes]
    have hc : jsRound (((0 : ℚ) * (3 / 10) + 7 / 10) * 100) = 70 := by
      rw [jsRound, Int.floor_eq_iff]; norm_num
    simp only [analyzeAnimalImage, hf, hc]
    norm_num [animalTypes]
  have h2 : analyzeAnimalImage ⟨"photo.jpg"⟩ ⟨1/2, 0⟩ = ⟨"Hippopotamus", 7/10⟩ := by
    have hf : ⌊(1/2 : ℚ) * (animalTypes.length : ℚ)⌋ = 8 := by
      rw [Int.floor_eq_iff]; norm_num [animalTypes]
    have hc : jsRound (((0 : ℚ) * (3 / 10) + 7 / 10) * 100) = 70 := by
      rw [jsRound, Int.floor_eq_iff]; norm_num
    simp only [analyzeAnimalImage, hf, hc]
    norm_num [animalTypes]
    decide
  rw [h1, h2]
  simp

/-- C1 (amended): the classification step is a stub that ignores the input
image: for every pair of image files and every fixed pair of `Math.random()`
draws, `analyzeAnimalImage` returns the same `AnimalAnalysis` on both files;
but its result depends on the random draws, so two calls on the same file
need not agree. -/
theorem analyzeAnimalImage_ignores_file (f₁ f₂ : File) (rnd : RandomDraws) :
    analyzeAnimalImage f₁ rnd = analyzeAnimalImage f₂ rnd := rfl

/-- C2: `syncOfflineReports` performs no upload, merge, or retry: from every
prior queue state it leaves `getOfflineReports` empty and its effect trace
(backend sends included) is empty. -/
theorem syncOfflineReports_clears_queue_sends_nothing (st : StoredValue) :
    getOfflineReports (syncOfflineReports st).1 = [] ∧
    (syncOfflineReports st).2 = [] :=
  ⟨rfl, rfl⟩

/-- C3: the screen-flow controller is a finite, fully-enumerated state
machine: there are exactly eight distinct `AppState` values (fewer than
ten), the initial state is one of them, and every transition handler maps a
state in this set to a state in this set. -/
theorem appStep_closed_over_appStates :
    appStates.length = 8 ∧ appStates.length < 10 ∧ appStates.Nodup ∧
    initialAppState ∈ appStates ∧
    ∀ (e : AppEvent) (s : String), s ∈ appStates → appStep e s ∈ appStates := by
  refine ⟨rfl, by decide, by decide, by decide, ?_⟩
  intro e s hs
  cases e with
  | splashComplete => show "userSelection" ∈ appStates; decide
  | userTypeSelection u =>
      show handleUserTypeSelection u ∈ appStates
      unfold handleUserTypeSelection
      split
      · decide
      · decide
  | authProfileLoaded u =>
      show authRedirect u s ∈ appStates
      unfold authRedirect
      split
      · decide
      · split
        · decide
        · split
          · decide
          · exact hs
  | imageCapture => show "report" ∈ appStates; decide
  | reportComplete => show "complete" ∈ appStates; decide
  | completeTimeout => show "userSelection" ∈ appStates; decide
  | backToUserSelection => show "userSelection" ∈ appStates; decide
  | backToCamera => show "camera" ∈ appStates; decide

/-- C3 (witness): the closure property at a concrete state and event. -/
theorem appStep_closed_over_appStates_witness :
    appStep AppEvent.reportComplete "report" ∈ appStates :=
  appStep_closed_over_appStates.2.2.2.2 AppEvent.reportComplete "report" (by decide)

/-- C4: role routing: the auth redirect sends `user_type` `'ranger'` to the
ranger dashboard, `'admin'` to the admin dashboard, and `'community'` to the
camera; selecting `'anonymous'` at user-type selection goes directly to the
camera without passing through the auth state, and every other selection
goes to the auth state. -/
theorem role_routing :
    (∀ s, authRedirect "ranger" s = "rangerDashboard") ∧
    (∀ s, authRedirect "admin" s = "adminDashboard") ∧
    (∀ s, authRedirect "community" s = "camera") ∧
    handleUserTypeSelection "anonymous" = "camera" ∧
    ∀ t, t ≠ "anonymous" → handleUserTypeSelection t = "auth" := by
  refine ⟨fun s => rfl, fun s => rfl, fun s => rfl, rfl, ?_⟩
  intro t ht
  simp [handleUserTypeSelection, ht]

/-- C4 (witness): the non-anonymous branch at a concrete selection. -/
theorem role_routing_witness :
    handleUserTypeSelection "community" = "auth" :=
  role_routing.2.2.2.2 "community" (by decide)

/-- C5: `saveOfflineReport` appends: from every queue state, after saving
`r` the readable queue is the previous readable queue with `r` appended at
the end (so no previously queued report is altered or removed). -/
theorem saveOfflineReport_appends (st : StoredValue) (r : OfflineReport) :
    getOfflineReports (saveOfflineReport r st) = getOfflineReports st ++ [r] := rfl

/-- C8: `getOfflineReports` is a total function of the storage state, and
returns the empty list both when the key is missing and when the stored
value is a string `JSON.parse` rejects. -/
theorem getOfflineReports_total (st : StoredValue) :
    (st = StoredValue.absent → getOfflineReports st = []) ∧
    (st = StoredValue.corrupt → getOfflineReports st = []) ∧
    ∃ l : List OfflineReport, getOfflineReports st = l := by
  refine ⟨?_, ?_, ⟨getOfflineReports st, rfl⟩⟩
  · intro h; subst h; rfl
  · intro h; subst h; rfl

/-- C8 (witness): the missing-key and parse-failure cases evaluated. -/
theorem getOfflineReports_total_witness :
    getOfflineReports StoredValue.absent = [] ∧
    getOfflineReports StoredValue.corrupt = [] :=
  ⟨(getOfflineReports_total StoredValue.absent).1 rfl,
   (getOfflineReports_total StoredValue.corrupt).2.1 rfl⟩

/-- C6: with a location set, the browser online, and the backend calls
succeeding, `submitReport` uploads the image, inserts into the `reports`
table a row carrying the assigned animal type, the attached GPS latitude
and longitude, status `'pending'`, and the uploaded image's public URL,
and then generates a PDF of that same report. -/
theorem submitReport_online_persists (env : SubmitEnv) (st : StoredValue) (loc : Location)
    (hloc : env.location = some loc) (hon : env.onLine = true)
    (hup : env.uploadError = none) (hins : env.insertError = none) :
    ∃ r : Report,
      (submitReport env st).effects =
        [Effect.storageUpload "wildlife-images" (uploadFileName env),
         Effect.dbInsert "reports" r,
         Effect.pdfGenerated r env.imageDataUrl] ∧
      (submitReport env st).report = some r ∧
      r.animal_type = env.animalType ∧
      r.latitude = loc.latitude ∧
      r.longitude = loc.longitude ∧
      r.status = "pending" ∧
      r.image_url = env.storagePublicUrlBase ++ uploadFileName env := by
  refine ⟨{ createReport env with
              image_url := env.storagePublicUrlBase ++ uploadFileName env }, ?_⟩
  simp [submitReport, createReport, hloc, hon, hup, hins]

/-- C6 (witness): the online success path at a concrete submission. -/
theorem submitReport_online_persists_witness :
    ∃ r : Report,
      (submitReport
        { isAnonymous := false, userId := some "u1", animalType := "Lion",
          imageDataUrl := "data:image/jpeg;base64,AAA",
          location := some { latitude := -1, longitude := 36 },
          onLine := true, reportId := "id1", now := "2025-01-01T00:00:00Z",
          uploadTime := "1735689600000", uploadError := none,
          storagePublicUrlBase := "https://example.supabase.co/storage/v1/object/public/wildlife-images/",
          insertError := none } StoredValue.absent).effects =
        [Effect.storageUpload "wildlife-images"
          (uploadFileName
            { isAnonymous := false, userId := some "u1", animalType := "Lion",
              imageDataUrl := "data:image/jpeg;base64,AAA",
              location := some { latitude := -1, longitude := 36 },
              onLine := true, reportId := "id1", now := "2025-01-01T00:00:00Z",
              uploadTime := "1735689600000", uploadError := none,
              storagePublicUrlBase := "https://example.supabase.co/storage/v1/object/public/wildlife-images/",
              insertError := none }),
         Effect.dbInsert "reports" r,
         Effect.pdfGenerated r "data:image/jpeg;base64,AAA"] ∧
      (submitReport
        { isAnonymous := false, userId := some "u1", animalType := "Lion",
          imageDataUrl := "data:image/jpeg;base64,AAA",
          location := some { latitude := -1, longitude := 36 },
          onLine := true, reportId := "id1", now := "2025-01-01T00:00:00Z",
          uploadTime := "1735689600000", uploadError := none,
          storagePublicUrlBase := "https://example.supabase.co/storage/v1/object/public/wildlife-images/",
          insertError := none } StoredValue.absent).report = some r ∧
      r.animal_type = "Lion" ∧
      r.latitude = (-1 : ℚ) ∧
      r.longitude = (36 : ℚ) ∧
      r.status = "pending" ∧
      r.image_url = "https://example.supabase.co/storage/v1/object/public/wildlife-images/" ++
        uploadFileName
          { isAnonymous := false, userId := some "u1", animalType := "Lion",
            imageDataUrl := "data:image/jpeg;base64,AAA",
            location := some { latitude := -1, longitude := 36 },
            onLine := true, reportId := "id1", now := "2025-01-01T00:00:00Z",
            uploadTime := "1735689600000", uploadError := none,
            storagePublicUrlBase := "https://example.supabase.co/storage/v1/object/public/wildlife-images/",
            insertError := none } :=
  submitReport_online_persists _ StoredValue.absent { latitude := -1, longitude := 36 }
    rfl rfl rfl rfl

/-- C7: with a location set and the browser offline, `submitReport` writes
the report to the local-storage offline queue — the image kept as a data
URL and an empty `image_url` — appending it to the readable queue; it does
not attempt any storage upload or database insert. -/
theorem submitReport_offline_queues (env : SubmitEnv) (st : StoredValue) (loc : Location)
    (hloc : env.location = some loc) (hoff : env.onLine = false) :
    ∃ o : OfflineReport,
      (submitReport env st).store = saveOfflineReport o st ∧
      getOfflineReports (submitReport env st).store = getOfflineReports st ++ [o] ∧
      o.image_url = "" ∧
      o.imageDataUrl = env.imageDataUrl ∧
      o.animal_type = env.animalType ∧
      o.latitude = loc.latitude ∧
      o.longitude = loc.longitude ∧
      (∀ b fn, Effect.storageUpload b fn ∉ (submitReport env st).effects) ∧
      (∀ t r, Effect.dbInsert t r ∉ (submitReport env st).effects) := by
  refine ⟨{ tempId := env.reportId
            user_id := if env.isAnonymous then none else env.userId
            animal_type := env.animalType
            image_url := ""
            imageDataUrl := env.imageDataUrl
            latitude := loc.latitude
            longitude := loc.longitude
            status := "pending"
            feedback := none
            timestamp := env.now }, ?_⟩
  simp [submitReport, createReport, saveOfflineReport, getOfflineReports, hloc, hoff]

/-- C7 (witness): the offline path at a concrete submission. -/
theorem submitReport_offline_queues_witness :
    ∃ o : OfflineReport,
      (submitReport
        { isAnonymous := true, userId := none, animalType := "Zebra",
          imageDataUrl := "data:image/jpeg;base64,BBB",
          location := some { latitude := -1, longitude := 36 },
          onLine := false, reportId := "id2", now := "2025-01-02T00:00:00Z",
          uploadTime := "1735776000000", uploadError := none,
          storagePublicUrlBase := "https://example.supabase.co/",
          insertError := none } StoredValue.absent).store = saveOfflineReport o StoredValue.absent ∧
      getOfflineReports
        (submitReport
          { isAnonymous := true, userId := none, animalType := "Zebra",
            imageDataUrl := "data:image/jpeg;base64,BBB",
            location := some { latitude := -1, longitude := 36 },
            onLine := false, reportId := "id2", now := "2025-01-02T00:00:00Z",
            uploadTime := "1735776000000", uploadError := none,
            storagePublicUrlBase := "https://example.supabase.co/",
            insertError := none } StoredValue.absent).store =
        getOfflineReports StoredValue.absent ++ [o] ∧
      o.image_url = "" ∧
      o.imageDataUrl = "data:image/jpeg;base64,BBB" ∧
      o.animal_type = "Zebra" ∧
      o.latitude = (-1 : ℚ) ∧
      o.longitude = (36 : ℚ) ∧
      (∀ b fn, Effect.storageUpload b fn ∉
        (submitReport
          { isAnonymous := true, userId := none, animalType := "Zebra",
            imageDataUrl := "data:image/jpeg;base64,BBB",
            location := some { latitude := -1, longitude := 36 },
            onLine := false, reportId := "id2", now := "2025-01-02T00:00:00Z",
            uploadTime := "1735776000000", uploadError := none,
            storagePublicUrlBase := "https://example.supabase.co/",
            insertError := none } StoredValue.absent).effects) ∧
      (∀ t r, Effect.dbInsert t r ∉
        (submitReport
          { isAnonymous := true, userId := none, animalType := "Zebra",
            imageDataUrl := "data:image/jpeg;base64,BBB",
            location := some { latitude := -1, longitude := 36 },
            onLine := false, reportId := "id2", now := "2025-01-02T00:00:00Z",
            uploadTime := "1735776000000", uploadError := none,
            storagePublicUrlBase := "https://example.supabase.co/",
            insertError := none } StoredValue.absent).effects) :=
  submitReport_offline_queues _ StoredValue.absent { latitude := -1, longitude := 36 }
    rfl rfl

/-- C9: for every input file and every pair of `Math.random()` draws in
`[0, 1)`, the returned `animalType` is a member of the fixed 17-element
`animalTypes` list and the returned confidence lies in `[0.7, 1.0]` and is
an integer multiple of `0.01`. -/
theorem analyzeAnimalImage_range (f : File) (rnd : RandomDraws)
    (ha0 : 0 ≤ rnd.animalRand) (ha1 : rnd.animalRand < 1)
    (hc0 : 0 ≤ rnd.confRand) (hc1 : rnd.confRand < 1) :
    (analyzeAnimalImage f rnd).animalType ∈ animalTypes ∧
    animalTypes.length = 17 ∧
    7/10 ≤ (analyzeAnimalImage f rnd).confidence ∧
    (analyzeAnimalImage f rnd).confidence ≤ 1 ∧
    ∃ k : ℤ, (analyzeAnimalImage f rnd).confidence = (k : ℚ) / 100 := by
  have hlenQ : (animalTypes.length : ℚ) = 17 := by norm_num [animalTypes]
  have hflo : 0 ≤ ⌊rnd.animalRand * (animalTypes.length : ℚ)⌋ := by
    apply Int.floor_nonneg.mpr
    rw [hlenQ]
    nlinarith
  have hfhi : ⌊rnd.animalRand * (animalTypes.length : ℚ)⌋ < 17 := by
    apply Int.floor_lt.mpr
    rw [hlenQ]
    push_cast
    nlinarith
  have hidx : (⌊rnd.animalRand * (animalTypes.length : ℚ)⌋).toNat < animalTypes.length := by
    have hlen : animalTypes.length = 17 := by norm_num [animalTypes]
    omega
  have hmem : (analyzeAnimalImage f rnd).animalType ∈ animalTypes := by
    show animalTypes.getD _ "" ∈ animalTypes
    rw [List.getD_eq_getElem _ _ hidx]
    exact List.getElem_mem _
  have h70 : (70 : ℤ) ≤ jsRound ((rnd.confRand * (3 / 10) + 7 / 10) * 100) := by
    apply Int.le_floor.mpr
    push_cast
    nlinarith
  have h100 : jsRound ((rnd.confRand * (3 / 10) + 7 / 10) * 100) ≤ 100 := by
    have h : ⌊(rnd.confRand * (3 / 10) + 7 / 10) * 100 + 1 / 2⌋ < 101 := by
      apply Int.floor_lt.mpr
      push_cast
      nlinarith
    rw [jsRound]
    omega
  have hconf : (analyzeAnimalImage f rnd).confidence =
      (jsRound ((rnd.confRand * (3 / 10) + 7 / 10) * 100) : ℚ) / 100 := rfl
  have h70Q : (70 : ℚ) ≤ (jsRound ((rnd.confRand * (3 / 10) + 7 / 10) * 100) : ℚ) := by
    exact_mod_cast h70
  have h100Q : (jsRound ((rnd.confRand * (3 / 10) + 7 / 10) * 100) : ℚ) ≤ 100 := by
    exact_mod_cast h100
  refine ⟨hmem, by norm_num [animalTypes], ?_, ?_, ?_⟩
  · rw [hconf]; linarith
  · rw [hconf]; linarith
  · exact ⟨jsRound ((rnd.confRand * (3 / 10) + 7 / 10) * 100), hconf⟩

/-- C9 (witness): the range property at a concrete file and draws. -/
theorem analyzeAnimalImage_range_witness :
    (analyzeAnimalImage ⟨"img.jpg"⟩ ⟨1/3, 1/3⟩).animalType ∈ animalTypes ∧
    animalTypes.length = 17 ∧
    7/10 ≤ (analyzeAnimalImage ⟨"img.jpg"⟩ ⟨1/3, 1/3⟩).confidence ∧
    (analyzeAnimalImage ⟨"img.jpg"⟩ ⟨1/3, 1/3⟩).confidence ≤ 1 ∧
    ∃ k : ℤ, (analyzeAnimalImage ⟨"img.jpg"⟩ ⟨1/3, 1/3⟩).confidence = (k : ℚ) / 100 :=
  analyzeAnimalImage_range ⟨"img.jpg"⟩ ⟨1/3, 1/3⟩
    (by norm_num) (by norm_num) (by norm_num) (by norm_num)

/-- C10: the local-state update in `updateReportStatus` is the map of a
per-report function that leaves every report with a non-matching id
entirely unchanged, never changes `id`, `animal_type`, `image_url`,
`latitude`, `longitude`, `created_at`, `user_id`, or `updated_at`, and on
the matching report sets `status` to the new status and `feedback` to the
given feedback text when it is non-empty (keeping the old feedback
otherwise). -/
theorem updateReportStatus_frame (reports : List Report) (reportId status : String)
    (feedbackText : Option String) :
    updateReportStatusLocal reports reportId status feedbackText =
      reports.map (applyStatusUpdate reportId status feedbackText) ∧
    ∀ r : Report,
      (r.id ≠ reportId → applyStatusUpdate reportId status feedbackText r = r) ∧
      (applyStatusUpdate reportId status feedbackText r).id = r.id ∧
      (applyStatusUpdate reportId status feedbackText r).animal_type = r.animal_type ∧
      (applyStatusUpdate reportId status feedbackText r).image_url = r.image_url ∧
      (applyStatusUpdate reportId status feedbackText r).latitude = r.latitude ∧
      (applyStatusUpdate reportId status feedbackText r).longitude = r.longitude ∧
      (applyStatusUpdate reportId status feedbackText r).created_at = r.created_at ∧
      (applyStatusUpdate reportId status feedbackText r).user_id = r.user_id ∧
      (applyStatusUpdate reportId status feedbackText r).updated_at = r.updated_at ∧
      (r.id = reportId →
        (applyStatusUpdate reportId status feedbackText r).status = status ∧
        (applyStatusUpdate reportId status feedbackText r).feedback =
          jsOrFeedback feedbackText r.feedback) := by
  refine ⟨rfl, ?_⟩
  intro r
  by_cases h : r.id = reportId <;> simp [applyStatusUpdate, h]

/-- C10 (witness): both the non-matching and the matching case at
concrete reports. -/
theorem updateReportStatus_frame_witness :
    (applyStatusUpdate "target" "invalid" none
        { id := "other", user_id := none, animal_type := "Lion", image_url := "u",
          latitude := 1, longitude := 2, status := "pending", feedback := none,
          created_at := "t0", updated_at := "t0" } =
      { id := "other", user_id := none, animal_type := "Lion", image_url := "u",
        latitude := 1, longitude := 2, status := "pending", feedback := none,
        created_at := "t0", updated_at := "t0" }) ∧
    ((applyStatusUpdate "target" "invalid" none
        { id := "target", user_id := some "u9", animal_type := "Zebra", image_url := "v",
          latitude := 3, longitude := 4, status := "pending", feedback := some "old",
          created_at := "t1", updated_at := "t1" }).status = "invalid" ∧
     (applyStatusUpdate "target" "invalid" none
        { id := "target", user_id := some "u9", animal_type := "Zebra", image_url := "v",
          latitude := 3, longitude := 4, status := "pending", feedback := some "old",
          created_at := "t1", updated_at := "t1" }).feedback =
       jsOrFeedback none (some "old")) :=
  ⟨((updateReportStatus_frame [] "target" "invalid" none).2 _).1 (by decide),
   ((updateReportStatus_frame [] "target" "invalid" none).2 _).2.2.2.2.2.2.2.2.2 rfl⟩

end SentryJamii
